import Mathlib

/-!
Shallow embedding of the event-stream client of the Lodestone dashboard
(`src/src/data/EventStream.ts`), the subsystem the specification calls the
event-stream synchronization and dispatch engine: the event model, the
projection caches (instance registry, ongoing-operation tracker,
notification log), the dispatcher `handleEvent`, and the connector
lifecycle of the `useEventStream` effect (catch-up fetch, live websocket,
cleanup).

Collaborators that the repository references but whose files are not part
of the provided sources (`data/InstanceList`, `data/NotificationContext`)
are modelled from the specification's words; each such definition says so
in its doc comment.
-/

/-- Instance lifecycle states, from `bindings/InstanceState` as used by the
dispatcher (string literals Starting, Running, Stopping, Stopped, Error)
and section 4.3 of the specification. -/
inductive InstanceState
  | Starting
  | Running
  | Stopping
  | Stopped
  | Error
deriving DecidableEq, Repr

/-- Instance registry entry, from `src/bindings/InstanceInfo.ts`. The `Game`
type of `game_type` is opaque here (a string); TS `number | null` becomes
`Option Int`. -/
structure InstanceInfo where
  uuid : String
  name : String
  game_type : String
  description : String
  port : Int
  creation_time : Int
  path : String
  auto_start : Bool
  restart_on_crash : Bool
  state : InstanceState
  player_count : Option Int
  max_player_count : Option Int
deriving DecidableEq, Repr

/-- Inner variants of an instance event, from the handler object of the
`InstanceEvent` branch of `handleEvent` (EventStream.ts lines 66-162). -/
inductive InstanceEventInner
  | InstanceStarting
  | InstanceStarted
  | InstanceStopping
  | InstanceStopped
  | InstanceWarning
  | InstanceError
  | InstanceInput (message : String)
  | InstanceOutput (message : String)
  | SystemMessage (message : String)
  | PlayerChange (player_list : List String) (players_joined : List String)
      (players_left : List String)
  | PlayerMessage (player : String) (player_message : String)
deriving DecidableEq, Repr

/-- Inner variants of a user event, from the `UserEvent` branch of
`handleEvent` (EventStream.ts lines 163-197). -/
inductive UserEventInner
  | UserCreated
  | UserDeleted
  | UserLoggedIn
  | UserLoggedOut
deriving DecidableEq, Repr

/-- Inner variants of a macro event, from the `MacroEvent` branch of
`handleEvent` (EventStream.ts lines 198-228). -/
inductive MacroEventInner
  | MacroStarted
  | MacroStopped
  | MacroErrored (error_msg : String)
deriving DecidableEq, Repr

/-- Start value of a progression event. The source's `ProgressionStart`
handler matches its optional `inner` with an empty handler object and a
default that does nothing (EventStream.ts lines 258-271), so every start
value is observationally identical; one constructor stands for them all. -/
inductive ProgressionStartValue
  | startValue
deriving DecidableEq, Repr

/-- End value of a progression event, from the inner match of the
`ProgressionEnd` handler (EventStream.ts lines 244-256): the two variants
the dispatcher is written against plus a default bucket for every other
variant, which the source's `otherwise` handler drops. -/
inductive ProgressionEndValue
  | InstanceCreation (instance_info : InstanceInfo)
  | InstanceDelete (instance_uuid : String)
  | OtherValue (tag : String)
deriving DecidableEq, Repr

/-- Inner variants of a progression (operation) event, as the dispatcher
destructures them (EventStream.ts lines 236-277); `ProgressionUpdate` falls
to the `otherwise` default there. -/
inductive ProgressionEventInner
  | ProgressionStart (inner : Option ProgressionStartValue)
  | ProgressionUpdate (progress_message : String) (progress : Int)
  | ProgressionEnd (success : Bool) (message : Option String)
      (inner : Option ProgressionEndValue)
deriving DecidableEq, Repr

/-- Filesystem event target, from the commented `match(target, ...)` of the
`FSEvent` branch (EventStream.ts lines 281-296). -/
inductive FSTarget
  | File (path : String)
  | Directory (path : String)
deriving DecidableEq, Repr

/-- Top-level payload variants, from the top-level match of `handleEvent`
(EventStream.ts lines 60-298). -/
inductive ClientEventInner
  | InstanceEvent (instance_event_inner : InstanceEventInner)
      (instance_uuid : String) (instance_name : String)
  | UserEvent (user_id : String) (user_event_inner : UserEventInner)
  | MacroEvent (instance_uuid : String) (macro_uuid : String)
      (macro_event_inner : MacroEventInner)
  | ProgressionEvent (event_id : String)
      (progression_event_inner : ProgressionEventInner)
  | FSEvent (operation : String) (target : FSTarget)
deriving DecidableEq, Repr

/-- Event envelope, from `bindings/ClientEvent` as destructured by
`handleEvent` (`const { event_inner, snowflake_str } = event`). -/
structure ClientEvent where
  event_inner : ClientEventInner
  snowflake_str : String
deriving DecidableEq, Repr

/-- The instance registry: the react-query cache of instances keyed by
uuid, as an association list. -/
abbrev Registry := List (String × InstanceInfo)

/-- Lookup of an instance by uuid in the registry. -/
def lookupInst (uuid : String) : Registry → Option InstanceInfo
  | [] => none
  | (k, v) :: rest => if k = uuid then some v else lookupInst uuid rest

/-- Modelled from the spec: `updateInstance` of `data/InstanceList` (a file
not among the provided sources). Section 4.4: the dispatcher "only ever
patches entries" the initial bulk load created, so the updater is applied
to the entry with the given uuid and a missing entry is left alone. -/
def updateInstance (uuid : String) (updater : InstanceInfo → InstanceInfo) :
    Registry → Registry
  | [] => []
  | (k, v) :: rest =>
      (k, if k = uuid then updater v else v) :: updateInstance uuid updater rest

/-- Modelled from the spec: `addInstance` of `data/InstanceList` (a file not
among the provided sources). Section 4.3: the terminal effect may "insert a
newly created instance into the registry"; upsert semantics per section
4.4 (merge over existing, or insert if absent). -/
def addInstance (instance_info : InstanceInfo) (reg : Registry) : Registry :=
  if (lookupInst instance_info.uuid reg).isSome then
    updateInstance instance_info.uuid (fun _ => instance_info) reg
  else
    reg ++ [(instance_info.uuid, instance_info)]

/-- Modelled from the spec: `deleteInstance` of `data/InstanceList` (a file
not among the provided sources). Section 4.3: "remove a deleted one";
deletion of an unknown id is ignored rather than erroring. -/
def deleteInstance (uuid : String) : Registry → Registry
  | [] => []
  | (k, v) :: rest =>
      if k = uuid then deleteInstance uuid rest
      else (k, v) :: deleteInstance uuid rest

/-- One notification-log entry: the textual trace the log retains of an
envelope (title shown to the user plus the envelope id). -/
structure NotificationEntry where
  title : String
  snowflake_str : String
deriving DecidableEq, Repr

/-- The three projection caches the dispatcher mutates: instance registry,
notification log, and ongoing-operation tracker keyed by the progression
event id. -/
structure DispatchState where
  instances : Registry
  notifications : List NotificationEntry
  ongoing : List (String × ProgressionEventInner)
deriving DecidableEq, Repr

/-- Modelled from the spec: the `add` action of the notification reducer of
`data/NotificationContext` (a file not among the provided sources). Section
3: the notification log is append-only; a dispatch of an `add` action
appends one entry derived from the envelope. -/
def dispatchAdd (title : String) (event : ClientEvent) (s : DispatchState) :
    DispatchState :=
  { s with notifications := s.notifications ++ [⟨title, event.snowflake_str⟩] }

/-- Modelled from the spec: the `clear` action of the notification reducer
of `data/NotificationContext` (a file not among the provided sources),
issued at the top of the `useEventStream` effect. -/
def dispatchClear (s : DispatchState) : DispatchState :=
  { s with notifications := [] }

/-- Modelled from the spec: `ongoingDispatch` of `data/NotificationContext`
(a file not among the provided sources). Section 4.3: the tracker keeps an
association between the operation id and the operation's latest event
(upsert keyed by operation id). -/
def ongoingUpsert (event_id : String) (inner : ProgressionEventInner) :
    List (String × ProgressionEventInner) → List (String × ProgressionEventInner)
  | [] => [(event_id, inner)]
  | (k, v) :: rest =>
      if k = event_id then (k, inner) :: rest
      else (k, v) :: ongoingUpsert event_id inner rest

/-- Helper `updateInstanceState` (EventStream.ts lines 34-41): patch the
instance's `state` field over the existing entry. -/
def updateInstanceState (uuid : String) (state : InstanceState)
    (reg : Registry) : Registry :=
  updateInstance uuid (fun oldInfo => { oldInfo with state := state }) reg

/-- Truthiness of the TS `number | null` field `player_count`: `null`, `0`
(and `NaN`, unrepresentable here) are falsy, everything else truthy. -/
def jsTruthyCount : Option Int → Bool
  | none => false
  | some c => decide (c ≠ 0)

/-- Helper `updateInstancePlayerCount` (EventStream.ts lines 42-54): the
ternary adds the increment only when the current `player_count` is truthy,
otherwise the field is kept as it is. -/
def updateInstancePlayerCount (uuid : String) (increment : Int)
    (reg : Registry) : Registry :=
  updateInstance uuid (fun oldInfo =>
    { oldInfo with player_count :=
        if jsTruthyCount oldInfo.player_count then
          oldInfo.player_count.map (fun c => c + increment)
        else oldInfo.player_count }) reg

/-- Title of the `PlayerChange` notification, from the template literal of
EventStream.ts lines 133-147 (its embedded newlines and indentation
included). -/
def playerChangeTitle (players_joined players_left : List String)
    (name : String) : String :=
  (if players_joined.length > 0 then
    String.intercalate ", " players_joined ++ " Joined " ++ name
  else "")
  ++ "\n              "
  ++ (if players_left.length > 0 ∧ players_joined.length > 0 then " and "
      else "")
  ++ "\n              "
  ++ (if players_left.length > 0 then
        String.intercalate ", " players_left ++ " Left " ++ name
      else "")

/-- The dispatcher `handleEvent` (EventStream.ts lines 56-299) as a state
transformer over the three projection caches. `fresh` is true for a live
envelope, false for a catch-up one. Console logging and the browser alert
of `InstanceWarning` are effects outside the modelled state. -/
def handleEvent (event : ClientEvent) (fresh : Bool) (s : DispatchState) :
    DispatchState :=
  match event.event_inner with
  | .InstanceEvent instanceInner uuid name =>
    match instanceInner with
    | .InstanceStarting =>
        let s1 := if fresh then
          { s with instances := updateInstanceState uuid .Starting s.instances }
        else s
        dispatchAdd ("Starting instance " ++ name) event s1
    | .InstanceStarted =>
        let s1 := if fresh then
          { s with instances := updateInstanceState uuid .Running s.instances }
        else s
        dispatchAdd ("Instance " ++ name ++ " started") event s1
    | .InstanceStopping =>
        let s1 := if fresh then
          { s with instances := updateInstanceState uuid .Stopping s.instances }
        else s
        dispatchAdd ("Stopping instance " ++ name) event s1
    | .InstanceStopped =>
        let s1 := if fresh then
          { s with instances := updateInstanceState uuid .Stopped s.instances }
        else s
        dispatchAdd ("Instance " ++ name ++ " stopped") event s1
    | .InstanceWarning =>
        dispatchAdd ("Instance " ++ name ++ " encountered a warning") event s
    | .InstanceError =>
        let s1 := if fresh then
          { s with instances := updateInstanceState uuid .Error s.instances }
        else s
        dispatchAdd ("Instance " ++ name ++ " encountered an error") event s1
    | .InstanceInput _ => s
    | .InstanceOutput _ => s
    | .SystemMessage _ => s
    | .PlayerChange _ players_joined players_left =>
        let reg1 :=
          updateInstancePlayerCount uuid (Int.ofNat players_joined.length)
            s.instances
        let reg2 :=
          updateInstancePlayerCount uuid (-(Int.ofNat players_left.length))
            reg1
        dispatchAdd (playerChangeTitle players_joined players_left name)
          event { s with instances := reg2 }
    | .PlayerMessage player player_message =>
        dispatchAdd (player ++ " said " ++ player_message ++ " on " ++ name)
          event s
  | .UserEvent uid userInner =>
    match userInner with
    | .UserCreated => dispatchAdd ("User " ++ uid ++ " created") event s
    | .UserDeleted => dispatchAdd ("User " ++ uid ++ " deleted") event s
    | .UserLoggedIn => dispatchAdd ("User " ++ uid ++ " logged in") event s
    | .UserLoggedOut => dispatchAdd ("User " ++ uid ++ " logged out") event s
  | .MacroEvent uuid macro_id macroInner =>
    match macroInner with
    | .MacroStarted =>
        dispatchAdd ("Macro " ++ macro_id ++ " started on " ++ uuid) event s
    | .MacroStopped =>
        dispatchAdd ("Macro " ++ macro_id ++ " stopped on " ++ uuid) event s
    | .MacroErrored error_msg =>
        dispatchAdd ("Macro " ++ macro_id ++ " errored on " ++ uuid ++ ": "
          ++ error_msg) event s
  | .ProgressionEvent event_id progInner =>
    let s1 := { s with ongoing := ongoingUpsert event_id progInner s.ongoing }
    if fresh then
      match progInner with
      | .ProgressionEnd _ _ endInner =>
        match endInner with
        | none => s1
        | some endValue =>
          match endValue with
          | .InstanceCreation instance_info =>
              { s1 with instances := addInstance instance_info s1.instances }
          | .InstanceDelete uuid =>
              { s1 with instances := deleteInstance uuid s1.instances }
          | .OtherValue _ => s1
      | .ProgressionStart _ => s1
      | .ProgressionUpdate _ _ => s1
    else s1
  | .FSEvent _ _ => s

/-- One asynchronous completion delivered to the `useEventStream` effect
after its body ran: resolution or rejection of the catch-up fetch, one
websocket message, or the effect cleanup (explicit stop, dependency change
or unmount). -/
inductive Completion
  | bufferOk (events : List ClientEvent)
  | bufferErr
  | wsMsg (event : ClientEvent)
  | cleanup
deriving DecidableEq, Repr

/-- Connector state of one `useEventStream` effect invocation: the caches,
the dispatch trace of `(envelope, fresh)` pairs in dispatch order, whether
the websocket is open, and whether the catch-up fetch has settled. -/
structure ConnState where
  caches : DispatchState
  trace : List (ClientEvent × Bool)
  ws_open : Bool
  buffer_done : Bool
deriving DecidableEq, Repr

/-- Start of the `useEventStream` effect (EventStream.ts lines 309-347): it
dispatches a `clear` action, issues the catch-up fetch, and synchronously
constructs the websocket — the socket exists before the fetch settles and
regardless of how it settles. -/
def startConn (s : DispatchState) : ConnState :=
  { caches := dispatchClear s, trace := [], ws_open := true,
    buffer_done := false }

/-- One completion handled as the source's callbacks do: the fetch `then`
callback dispatches every buffered envelope with fresh = false and has no
guard against an earlier cleanup (lines 321-325); there is no rejection
handler, so a failed fetch changes nothing; `onmessage` dispatches one live
envelope with fresh = true (lines 339-343); the effect cleanup closes the
websocket (lines 345-347). A message completion on a closed socket is not
delivered (the transport delivers none after close; the code itself has no
guard). -/
def stepConn (c : ConnState) : Completion → ConnState
  | .bufferOk events =>
      if c.buffer_done then c
      else
        { c with
          buffer_done := true,
          caches := events.foldl (fun st e => handleEvent e false st) c.caches,
          trace := c.trace ++ events.map (fun e => (e, false)) }
  | .bufferErr => if c.buffer_done then c else { c with buffer_done := true }
  | .wsMsg event =>
      if c.ws_open then
        { c with
          caches := handleEvent event true c.caches,
          trace := c.trace ++ [(event, true)] }
      else c
  | .cleanup => { c with ws_open := false }

/-- One `Start` invocation followed by a schedule of transport
completions. -/
def runConn (s : DispatchState) (completions : List Completion) : ConnState :=
  completions.foldl stepConn (startConn s)

/-- A batch of live websocket message completions. -/
def wsBatch (events : List ClientEvent) : List Completion :=
  events.map Completion.wsMsg

/-- Convenience constructor for an instance-event envelope. -/
def mkInstanceEvent (inner : InstanceEventInner) (uuid name snow : String) :
    ClientEvent :=
  ⟨ClientEventInner.InstanceEvent inner uuid name, snow⟩

/-- Lookup after an update of the same key applies the updater to the
looked-up entry. -/
theorem lookupInst_updateInstance (uuid : String)
    (updater : InstanceInfo → InstanceInfo) (reg : Registry) :
    lookupInst uuid (updateInstance uuid updater reg)
      = (lookupInst uuid reg).map updater := by
  induction reg with
  | nil => rfl
  | cons p rest ih =>
      obtain ⟨k, v⟩ := p
      by_cases h : k = uuid
      · simp [updateInstance, lookupInst, h]
      · simp [updateInstance, lookupInst, h, ih]

/-- Concrete instance fixture: known from the initial listing, state
Starting, zero players (a falsy player count). -/
def infoX : InstanceInfo :=
  { uuid := "x", name := "X", game_type := "MinecraftJava",
    description := "demo", port := 25565, creation_time := 0,
    path := "/srv/x", auto_start := false, restart_on_crash := false,
    state := InstanceState.Starting, player_count := some 0,
    max_player_count := some 20 }

/-- Concrete instance fixture with a truthy (nonzero) player count. -/
def infoY : InstanceInfo :=
  { infoX with
      uuid := "y"
      name := "Y"
      state := InstanceState.Running
      player_count := some 5 }

/-- Concrete initial caches: two instances, empty notification log and
empty operation tracker. -/
def state0 : DispatchState :=
  { instances := [("x", infoX), ("y", infoY)], notifications := [],
    ongoing := [] }

/-- C10: dispatching a PlayerChange event for an instance whose stored
player_count is null or 0 leaves player_count unchanged — each delta
application first tests the current count for truthiness and skips the
addition when the count is absent or zero, so joins and leaves are
silently dropped for such instances. -/
theorem playerChange_falsy_count_unchanged
    (s : DispatchState) (uuid name snow : String)
    (player_list players_joined players_left : List String)
    (info : InstanceInfo) (fresh : Bool)
    (hlook : lookupInst uuid s.instances = some info)
    (hfalsy : info.player_count = none ∨ info.player_count = some 0) :
    (lookupInst uuid
        (handleEvent
          (mkInstanceEvent
            (InstanceEventInner.PlayerChange player_list players_joined
              players_left) uuid name snow) fresh s).instances).map
      InstanceInfo.player_count = some info.player_count := by
  have hinst :
      (handleEvent
          (mkInstanceEvent
            (InstanceEventInner.PlayerChange player_list players_joined
              players_left) uuid name snow) fresh s).instances
        = updateInstancePlayerCount uuid (-(Int.ofNat players_left.length))
            (updateInstancePlayerCount uuid (Int.ofNat players_joined.length)
              s.instances) := rfl
  rw [hinst, updateInstancePlayerCount, updateInstancePlayerCount,
    lookupInst_updateInstance, lookupInst_updateInstance, hlook]
  rcases hfalsy with h | h <;> simp [jsTruthyCount, h]

/-- Witness for the C10 theorem at a concrete input: instance "x" holds
player_count 0, and a live PlayerChange with two joins and one leave keeps
it at 0. -/
theorem playerChange_falsy_count_unchanged_witness :
    lookupInst "x" state0.instances = some infoX ∧
    (infoX.player_count = none ∨ infoX.player_count = some 0) ∧
    (lookupInst "x"
        (handleEvent
          (mkInstanceEvent
            (InstanceEventInner.PlayerChange [] ["a", "b"] ["c"]) "x" "X" "4")
          true state0).instances).map InstanceInfo.player_count
      = some infoX.player_count :=
  ⟨rfl, Or.inr rfl,
    playerChange_falsy_count_unchanged state0 "x" "X" "4" [] ["a", "b"] ["c"]
      infoX true rfl (Or.inr rfl)⟩

/-- C5 counterexample: for an instance whose prior player_count is 0 (a
falsy value), dispatching PlayerChange with joined = ["a","b"] and left =
["c"] leaves the count at 0, not changed by +1 as the claim states for
every prior value of the field. -/
theorem playerChange_delta_counterexample :
    (lookupInst "x"
        (handleEvent
          (mkInstanceEvent
            (InstanceEventInner.PlayerChange [] ["a", "b"] ["c"]) "x" "X" "5")
          true state0).instances).map InstanceInfo.player_count
        = some (some 0) ∧
    ((some (some 0) : Option (Option Int)) ≠ some (some (0 + (2 - 1) : Int))) :=
  ⟨rfl, by decide⟩

/-- C5 amended: when the stored player_count is a nonzero value c and
c + len(joined) is also nonzero, dispatching PlayerChange changes the count
by exactly len(joined) - len(left), with no clamping below zero; when the
stored count is null or 0 the deltas are silently dropped and the count is
unchanged. -/
theorem playerChange_delta_amended
    (s : DispatchState) (uuid name snow : String)
    (player_list players_joined players_left : List String)
    (info : InstanceInfo) (c : Int) (fresh : Bool)
    (hlook : lookupInst uuid s.instances = some info)
    (hc : info.player_count = some c) (hc0 : c ≠ 0)
    (hcj : c + (players_joined.length : Int) ≠ 0) :
    (lookupInst uuid
        (handleEvent
          (mkInstanceEvent
            (InstanceEventInner.PlayerChange player_list players_joined
              players_left) uuid name snow) fresh s).instances).map
      InstanceInfo.player_count
      = some (some (c + (players_joined.length : Int)
          - (players_left.length : Int))) := by
  have hinst :
      (handleEvent
          (mkInstanceEvent
            (InstanceEventInner.PlayerChange player_list players_joined
              players_left) uuid name snow) fresh s).instances
        = updateInstancePlayerCount uuid (-(Int.ofNat players_left.length))
            (updateInstancePlayerCount uuid (Int.ofNat players_joined.length)
              s.instances) := rfl
  rw [hinst, updateInstancePlayerCount, updateInstancePlayerCount,
    lookupInst_updateInstance, lookupInst_updateInstance, hlook]
  simp [jsTruthyCount, hc, hc0, hcj]
  ring

/-- Witness for the C5 amended theorem at a concrete input: instance "y"
holds 5 players; two join and three leave, so the count becomes 4. -/
theorem playerChange_delta_amended_witness :
    lookupInst "y" state0.instances = some infoY ∧
    infoY.player_count = some 5 ∧
    ((5 : Int) ≠ 0) ∧
    ((5 : Int) + ((["a", "b"] : List String).length : Int) ≠ 0) ∧
    (lookupInst "y"
        (handleEvent
          (mkInstanceEvent
            (InstanceEventInner.PlayerChange [] ["a", "b"] ["c", "d", "e"])
            "y" "Y" "6") true state0).instances).map InstanceInfo.player_count
      = some (some 4) :=
  ⟨rfl, rfl, by decide, by decide,
    playerChange_delta_amended state0 "y" "Y" "6" [] ["a", "b"]
      ["c", "d", "e"] infoY 5 true rfl rfl (by decide) (by decide)⟩

/-- C7: for a fresh (live) InstanceEvent the dispatcher sets the instance's
state field by the fixed transition table — Starting yields Starting,
Started yields Running, Stopping yields Stopping, Stopped yields Stopped,
Error yields Error from any prior state — and a Warning event leaves the
state field unchanged (it is notified only). -/
theorem instanceEvent_state_table
    (s : DispatchState) (uuid name snow : String) (info : InstanceInfo)
    (hlook : lookupInst uuid s.instances = some info) :
    lookupInst uuid
        (handleEvent (mkInstanceEvent InstanceEventInner.InstanceStarting
          uuid name snow) true s).instances
      = some { info with state := InstanceState.Starting } ∧
    lookupInst uuid
        (handleEvent (mkInstanceEvent InstanceEventInner.InstanceStarted
          uuid name snow) true s).instances
      = some { info with state := InstanceState.Running } ∧
    lookupInst uuid
        (handleEvent (mkInstanceEvent InstanceEventInner.InstanceStopping
          uuid name snow) true s).instances
      = some { info with state := InstanceState.Stopping } ∧
    lookupInst uuid
        (handleEvent (mkInstanceEvent InstanceEventInner.InstanceStopped
          uuid name snow) true s).instances
      = some { info with state := InstanceState.Stopped } ∧
    lookupInst uuid
        (handleEvent (mkInstanceEvent InstanceEventInner.InstanceError
          uuid name snow) true s).instances
      = some { info with state := InstanceState.Error } ∧
    lookupInst uuid
        (handleEvent (mkInstanceEvent InstanceEventInner.InstanceWarning
          uuid name snow) true s).instances
      = some info := by
  have h1 : ∀ st : InstanceState,
      lookupInst uuid (updateInstanceState uuid st s.instances)
        = some { info with state := st } := by
    intro st
    rw [updateInstanceState, lookupInst_updateInstance, hlook]
    rfl
  exact ⟨h1 _, h1 _, h1 _, h1 _, h1 _, hlook⟩

/-- Witness for the C7 theorem at a concrete input: a live InstanceStarted
envelope for instance "x" puts it in the Running state. -/
theorem instanceEvent_state_table_witness :
    lookupInst "x" state0.instances = some infoX ∧
    lookupInst "x"
        (handleEvent (mkInstanceEvent InstanceEventInner.InstanceStarted
          "x" "X" "7") true state0).instances
      = some { infoX with state := InstanceState.Running } :=
  ⟨rfl, (instanceEvent_state_table state0 "x" "X" "7" infoX rfl).2.1⟩

/-- Three distinct catch-up InstanceStarted envelopes for instance "x". -/
def started3 : List ClientEvent :=
  [mkInstanceEvent InstanceEventInner.InstanceStarted "x" "X" "11",
   mkInstanceEvent InstanceEventInner.InstanceStarted "x" "X" "12",
   mkInstanceEvent InstanceEventInner.InstanceStarted "x" "X" "13"]

/-- C1 counterexample: dispatching three catch-up (fresh = false)
InstanceStarted envelopes appends three notification-log entries, not the
zero the claim states, and the instance-registry state write is skipped
(the state stays Starting instead of the unconditional Running write the
claim states). -/
theorem freshness_split_counterexample :
    ((started3.foldl (fun st e => handleEvent e false st)
        state0).notifications.length = 3) ∧
    ((lookupInst "x"
        (started3.foldl (fun st e => handleEvent e false st)
          state0).instances).map InstanceInfo.state
      = some InstanceState.Starting) ∧
    (3 : Nat) ≠ 0 :=
  ⟨rfl, rfl, by decide⟩

/-- C1 amended: the freshness split of the dispatcher is the reverse of the
claimed one for the instance registry — instance-state registry writes are
applied only when the envelope is live, the operation-tracker write is
applied unconditionally, and a notification-log entry is appended
regardless of freshness (so one entry per InstanceStarted envelope whether
catch-up or live, and a live InstanceStarted also sets the state to
Running). -/
theorem freshness_split_amended (s : DispatchState) (uuid name snow : String) :
    (handleEvent (mkInstanceEvent InstanceEventInner.InstanceStarted
        uuid name snow) false s).instances = s.instances ∧
    (handleEvent (mkInstanceEvent InstanceEventInner.InstanceStarted
        uuid name snow) false s).ongoing = s.ongoing ∧
    (handleEvent (mkInstanceEvent InstanceEventInner.InstanceStarted
        uuid name snow) false s).notifications
      = s.notifications ++ [⟨"Instance " ++ name ++ " started", snow⟩] ∧
    (handleEvent (mkInstanceEvent InstanceEventInner.InstanceStarted
        uuid name snow) true s).notifications
      = s.notifications ++ [⟨"Instance " ++ name ++ " started", snow⟩] ∧
    (handleEvent (mkInstanceEvent InstanceEventInner.InstanceStarted
        uuid name snow) true s).instances
      = updateInstanceState uuid InstanceState.Running s.instances ∧
    (∀ (fresh : Bool) (eid : String) (inner : ProgressionEventInner),
      (handleEvent ⟨ClientEventInner.ProgressionEvent eid inner, snow⟩
          fresh s).ongoing
        = ongoingUpsert eid inner s.ongoing) := by
  refine ⟨rfl, rfl, rfl, rfl, rfl, ?_⟩
  intro fresh eid inner
  cases fresh
  · rfl
  · cases inner with
    | ProgressionStart osv => rfl
    | ProgressionUpdate pm p => rfl
    | ProgressionEnd su msg ei =>
        cases ei with
        | none => rfl
        | some ev => cases ev <;> rfl

/-- C6: a progression event touches the instance registry exactly when it
is the terminal ProgressionEnd carrying an InstanceCreation or
InstanceDelete value and the envelope is live: the creation inserts the new
instance, the deletion removes it, and every other progression event —
Start, Update, End without a value or with another value, or any
progression event received during catch-up — leaves the registry
unchanged. -/
theorem progression_registry_effect
    (s : DispatchState) (eid snow uuid : String) (success : Bool)
    (message : Option String) (info : InstanceInfo) (tag : String)
    (osv : Option ProgressionStartValue) (pm : String) (pct : Int) :
    (handleEvent ⟨ClientEventInner.ProgressionEvent eid
        (ProgressionEventInner.ProgressionEnd success message
          (some (ProgressionEndValue.InstanceCreation info))), snow⟩
        true s).instances
      = addInstance info s.instances ∧
    (handleEvent ⟨ClientEventInner.ProgressionEvent eid
        (ProgressionEventInner.ProgressionEnd success message
          (some (ProgressionEndValue.InstanceDelete uuid))), snow⟩
        true s).instances
      = deleteInstance uuid s.instances ∧
    (handleEvent ⟨ClientEventInner.ProgressionEvent eid
        (ProgressionEventInner.ProgressionEnd success message
          (some (ProgressionEndValue.OtherValue tag))), snow⟩
        true s).instances
      = s.instances ∧
    (handleEvent ⟨ClientEventInner.ProgressionEvent eid
        (ProgressionEventInner.ProgressionEnd success message none), snow⟩
        true s).instances
      = s.instances ∧
    (handleEvent ⟨ClientEventInner.ProgressionEvent eid
        (ProgressionEventInner.ProgressionStart osv), snow⟩
        true s).instances
      = s.instances ∧
    (handleEvent ⟨ClientEventInner.ProgressionEvent eid
        (ProgressionEventInner.ProgressionUpdate pm pct), snow⟩
        true s).instances
      = s.instances ∧
    (∀ inner : ProgressionEventInner,
      (handleEvent ⟨ClientEventInner.ProgressionEvent eid inner, snow⟩
          false s).instances = s.instances) :=
  ⟨rfl, rfl, rfl, rfl, rfl, rfl, fun _ => rfl⟩

/-- Concrete filesystem-event envelope. -/
def evFS : ClientEvent :=
  ⟨ClientEventInner.FSEvent "Create" (FSTarget.File "/srv/x/world/level.dat"),
    "21"⟩

/-- C9 counterexample: dispatching a FilesystemEvent performs no effect at
all — in particular it appends no notification-log entry, contrary to the
claim that it appends one (its handler body is commented out in the
source). -/
theorem fsEvent_counterexample : handleEvent evFS true state0 = state0 := rfl

/-- Titles of the four user-event notifications, as the UserEvent branch of
the dispatcher writes them. -/
def userEventTitle (uid : String) : UserEventInner → String
  | UserEventInner.UserCreated => "User " ++ uid ++ " created"
  | UserEventInner.UserDeleted => "User " ++ uid ++ " deleted"
  | UserEventInner.UserLoggedIn => "User " ++ uid ++ " logged in"
  | UserEventInner.UserLoggedOut => "User " ++ uid ++ " logged out"

/-- C9 amended: dispatching a UserEvent appends exactly one
notification-log entry and performs no other effect (registry and
operation tracker unchanged), while dispatching a FilesystemEvent performs
no effect at all — not even a notification-log append. -/
theorem userFsEvent_effects (s : DispatchState) (snow uid op : String)
    (uinner : UserEventInner) (tgt : FSTarget) (fresh : Bool) :
    (handleEvent ⟨ClientEventInner.UserEvent uid uinner, snow⟩ fresh s
      = { s with notifications :=
            s.notifications ++ [⟨userEventTitle uid uinner, snow⟩] }) ∧
    handleEvent ⟨ClientEventInner.FSEvent op tgt, snow⟩ fresh s = s := by
  constructor
  · cases uinner <;> rfl
  · rfl

/-- The ordering property claimed in C2, as a predicate on a dispatch
trace: every catch-up entry (fresh = false) is dispatched strictly before
any live entry (fresh = true), so no catch-up entry follows a live one. -/
def catchupAllBeforeLive : List (ClientEvent × Bool) → Bool
  | [] => true
  | (_, true) :: rest => rest.all (fun p => p.2)
  | (_, false) :: rest => catchupAllBeforeLive rest

/-- Folding a batch of websocket messages over an open connection
dispatches each live envelope in arrival order and leaves the connection
flags untouched. -/
theorem foldl_wsBatch_open (events : List ClientEvent) (c : ConnState)
    (h : c.ws_open = true) :
    List.foldl stepConn c (wsBatch events) =
      { caches := List.foldl (fun st e => handleEvent e true st) c.caches
          events,
        trace := c.trace ++ events.map (fun e => (e, true)),
        ws_open := c.ws_open,
        buffer_done := c.buffer_done } := by
  induction events generalizing c with
  | nil => simp [wsBatch]
  | cons e rest ih =>
      have hstep : stepConn c (Completion.wsMsg e) =
          { c with
              caches := handleEvent e true c.caches
              trace := c.trace ++ [(e, true)] } := by
        simp [stepConn, h]
      show List.foldl stepConn (stepConn c (Completion.wsMsg e))
          (wsBatch rest) = _
      rw [hstep]
      refine (ih
          { caches := handleEvent e true c.caches
            trace := c.trace ++ [(e, true)]
            ws_open := c.ws_open
            buffer_done := c.buffer_done } h).trans ?_
      simp

/-- Folding any batch of websocket messages over a closed connection is a
no-op: the source attaches no further delivery once the socket is
closed. -/
theorem foldl_wsBatch_closed (events : List ClientEvent) (c : ConnState)
    (h : c.ws_open = false) :
    List.foldl stepConn c (wsBatch events) = c := by
  induction events generalizing c with
  | nil => rfl
  | cons e rest ih =>
      have hstep : stepConn c (Completion.wsMsg e) = c := by
        simp [stepConn, h]
      show List.foldl stepConn (stepConn c (Completion.wsMsg e))
          (wsBatch rest) = c
      rw [hstep]
      exact ih c h

/-- Concrete live envelope delivered by the websocket. -/
def evLiveY : ClientEvent :=
  mkInstanceEvent InstanceEventInner.InstanceStarted "y" "Y" "31"

/-- Concrete catch-up envelope returned by the buffer fetch. -/
def evBufX : ClientEvent :=
  mkInstanceEvent InstanceEventInner.InstanceStarting "x" "X" "30"

/-- C2 counterexample: in the interleaving where one live websocket message
arrives before the catch-up response resolves, the live envelope is
dispatched before the catch-up envelope — the catch-up batch is not
strictly first, refuting the claimed ordering for every interleaving of
transport completions. -/
theorem ordering_counterexample :
    (runConn state0
        [Completion.wsMsg evLiveY, Completion.bufferOk [evBufX]]).trace
      = [(evLiveY, true), (evBufX, false)] ∧
    catchupAllBeforeLive [(evLiveY, true), (evBufX, false)] = false :=
  ⟨rfl, rfl⟩

/-- C2 amended: within one Start invocation the catch-up batch is
dispatched contiguously in received order, and live envelopes are
dispatched in arrival order; but live envelopes arriving before the
catch-up response resolves are dispatched before the whole catch-up batch,
because the websocket is opened without waiting for the catch-up request
to settle. -/
theorem ordering_amended (s : DispatchState) (pre buf post : List ClientEvent) :
    (runConn s (wsBatch pre ++ Completion.bufferOk buf :: wsBatch post)).trace
      = pre.map (fun e => (e, true)) ++ buf.map (fun e => (e, false))
        ++ post.map (fun e => (e, true)) := by
  unfold runConn
  rw [List.foldl_append, foldl_wsBatch_open pre (startConn s) rfl,
      List.foldl_cons, foldl_wsBatch_open post _ rfl]
  simp [stepConn, startConn]

/-- C3 counterexample: when the catch-up request fails, the live websocket
connection exists and stays open — the connector opened it without waiting
for catch-up success, refuting the fail-fast claim. -/
theorem failFast_counterexample :
    (runConn state0 [Completion.bufferErr]).ws_open = true ∧
    (runConn state0 [Completion.bufferErr]).trace = [] :=
  ⟨rfl, rfl⟩

/-- C3 amended: a catch-up failure is not surfaced — the fetch has no
rejection handler, so the failure changes nothing — and it does not
prevent the live channel: the websocket is opened at Start regardless, no
catch-up envelope is dispatched, and live envelopes are still dispatched
in arrival order. -/
theorem failFast_amended (s : DispatchState) (msgs : List ClientEvent) :
    (runConn s (Completion.bufferErr :: wsBatch msgs)).ws_open = true ∧
    (runConn s (Completion.bufferErr :: wsBatch msgs)).trace
      = msgs.map (fun e => (e, true)) := by
  unfold runConn
  rw [List.foldl_cons,
      show stepConn (startConn s) Completion.bufferErr
        = { startConn s with buffer_done := true } from rfl,
      foldl_wsBatch_open msgs _ rfl]
  exact ⟨rfl, rfl⟩

/-- C8 counterexample: a catch-up response that arrives after the effect
cleanup (Stop) is not discarded — the buffered envelope is still
dispatched and the notification log mutated, refuting the claimed
discard; the websocket itself is closed. -/
theorem stop_counterexample :
    ((runConn state0
        [Completion.cleanup,
          Completion.bufferOk [evBufX]]).caches.notifications).length = 1 ∧
    (runConn state0
        [Completion.cleanup, Completion.bufferOk [evBufX]]).ws_open
      = false :=
  ⟨rfl, rfl⟩

/-- C8 amended: the cleanup closes the push connection on every exit path
and live messages delivered to a closed connection are not dispatched, but
a catch-up response arriving after Stop is not discarded: its envelopes
are still dispatched into the caches (there is no generation or epoch
guard in the fetch callback). -/
theorem stop_amended (s : DispatchState) (msgs buf : List ClientEvent) :
    (runConn s (Completion.cleanup :: (wsBatch msgs
        ++ [Completion.bufferOk buf]))).ws_open = false ∧
    (runConn s (Completion.cleanup :: (wsBatch msgs
        ++ [Completion.bufferOk buf]))).trace
      = buf.map (fun e => (e, false)) ∧
    (runConn s (Completion.cleanup :: (wsBatch msgs
        ++ [Completion.bufferOk buf]))).caches
      = buf.foldl (fun st e => handleEvent e false st) (dispatchClear s) := by
  unfold runConn
  rw [List.foldl_cons,
      show stepConn (startConn s) Completion.cleanup
        = { startConn s with ws_open := false } from rfl,
      List.foldl_append, foldl_wsBatch_closed msgs _ rfl]
  exact ⟨rfl, rfl, rfl⟩
